import Mathlib

/-!
# Verification of the stem-splitter admission-control and accounting core

Shallow embedding of `app/traffic_monitor.py`, `app/resource_guard.py`,
`app/auto_cleaner.py`, `app/utils/file_utils.py` and the relevant endpoint
fragments of `app/main.py`.

Conventions of the embedding:
* Python `time.time()` timestamps are modelled as exact rationals (`ℚ`),
  byte counts as unbounded integers (`ℤ`), matching Python's `int`.
* The single JSON state file of the ledger is modelled by a `Disk` value
  holding an optional parsed `LedgerFile`; a missing *or* unparsable file is
  `contents = none` (both take the same code path in `load_state`).
  `Disk.failWrites` models an environment in which the `open(...,'w')` /
  `json.dump` call raises; the `try/except` in `save_state` swallows it.
* Methods that mutate `self` and possibly the state file are state-passing
  functions `TrafficMonitor → Disk → ... → TrafficMonitor × Disk × result`.
-/

/-- One parsed ledger JSON file, `{used_bytes, month_start, last_update}`
(`traffic_monitor.py`, `save_state`). -/
structure LedgerFile where
  used_bytes : ℤ
  month_start : ℚ
  last_update : ℚ
  deriving Repr, DecidableEq

/-- The backing store of the ledger: the (parsed) content of the state file,
plus an environment flag saying whether write attempts raise. -/
structure Disk where
  contents : Option LedgerFile
  failWrites : Bool
  deriving Repr, DecidableEq

/-- In-memory state of `TrafficMonitor` (`traffic_monitor.py`, `__init__`):
`max_bytes`, `used_bytes`, `month_start`.  (`state_file` is a fixed path and
is represented by the single `Disk`.) -/
structure TrafficMonitor where
  max_bytes : ℤ
  used_bytes : ℤ
  month_start : ℚ
  deriving Repr, DecidableEq

namespace TrafficMonitor

/-- 30 days in seconds, the `month_seconds` of `_check_month_reset`. -/
def month_seconds : ℚ := 30 * 24 * 3600

/-- The raw file write: `open(state_file,'w'); json.dump({...})`.  Raises
(models any `IOError`) when the environment fails writes. -/
def write_state_file (disk : Disk) (f : LedgerFile) : Except String Disk :=
  if disk.failWrites then .error "write failed"
  else .ok { disk with contents := some f }

/-- `save_state` (`traffic_monitor.py` lines 57-69): dump the full state,
catching any exception (it is only logged). -/
def save_state (m : TrafficMonitor) (disk : Disk) (now : ℚ) : Disk :=
  match write_state_file disk ⟨m.used_bytes, m.month_start, now⟩ with
  | .ok d => d
  | .error _ => disk

/-- `_reset_month` (lines 71-76): zero the counter, restart the period at
`now`, persist. -/
def _reset_month (m : TrafficMonitor) (disk : Disk) (now : ℚ) :
    TrafficMonitor × Disk :=
  let m' := { m with used_bytes := 0, month_start := now }
  (m', save_state m' disk now)

/-- `_check_month_reset` (lines 78-93): if more than 30 days have elapsed
since `month_start`, reset; returns whether a reset happened. -/
def _check_month_reset (m : TrafficMonitor) (disk : Disk) (now : ℚ) :
    TrafficMonitor × Disk × Bool :=
  if now - m.month_start > month_seconds then
    let (m', d') := _reset_month m disk now
    (m', d', true)
  else
    (m, disk, false)

/-- `get_usage_percent` (lines 131-141): rollover check first, else
`used_bytes / max_bytes * 100`. -/
def get_usage_percent (m : TrafficMonitor) (disk : Disk) (now : ℚ) :
    TrafficMonitor × Disk × ℚ :=
  let (m', d', r) := _check_month_reset m disk now
  if r then (m', d', 0)
  else (m', d', ((m'.used_bytes : ℚ) / (m'.max_bytes : ℚ)) * 100)

/-- `add_traffic` (lines 95-117): rollover check, add `upload + download`,
persist, then compute the usage percentage for the warning log. -/
def add_traffic (m : TrafficMonitor) (disk : Disk) (now : ℚ)
    (upload_bytes download_bytes : ℤ) : TrafficMonitor × Disk :=
  let (m1, d1, _) := _check_month_reset m disk now
  let m2 := { m1 with used_bytes := m1.used_bytes + (upload_bytes + download_bytes) }
  let d2 := save_state m2 d1 now
  let (m3, d3, _) := get_usage_percent m2 d2 now
  (m3, d3)

/-- `is_limit_reached` (lines 119-129): rollover check first; a fresh month
is never at the limit, otherwise `used_bytes >= max_bytes`. -/
def is_limit_reached (m : TrafficMonitor) (disk : Disk) (now : ℚ) :
    TrafficMonitor × Disk × Bool :=
  let (m', d', r) := _check_month_reset m disk now
  if r then (m', d', false)
  else (m', d', decide (m'.used_bytes ≥ m'.max_bytes))

/-- `get_remaining_bytes` (lines 143-152): `0` once the limit is reached,
else `max_bytes - used_bytes` (on the possibly reset state). -/
def get_remaining_bytes (m : TrafficMonitor) (disk : Disk) (now : ℚ) :
    TrafficMonitor × Disk × ℤ :=
  let (m', d', limit) := is_limit_reached m disk now
  if limit then (m', d', 0)
  else (m', d', m'.max_bytes - m'.used_bytes)

/-- `__init__` + `load_state` (lines 19-55): construct a monitor over the
state file.  An existing parsable file populates `used_bytes`/`month_start`
and then runs the rollover check; a missing or unparsable file takes the
`_reset_month` path on the zeroed defaults. -/
def load_state (max_bytes : ℤ) (disk : Disk) (now : ℚ) :
    TrafficMonitor × Disk :=
  match disk.contents with
  | some data =>
      let m : TrafficMonitor :=
        { max_bytes := max_bytes, used_bytes := data.used_bytes,
          month_start := data.month_start }
      let (m', d', _) := _check_month_reset m disk now
      (m', d')
  | none =>
      let m : TrafficMonitor :=
        { max_bytes := max_bytes, used_bytes := 0, month_start := now }
      _reset_month m disk now

end TrafficMonitor

/-! ## Resource Guard (`app/resource_guard.py`, `app/config.py`)

The class body in `app/resource_guard.py` declares the fields and the lock;
the bodies of `check_resources` and of the context-manager protocol used by
`with resource_guard:` in `main.py` are elided in the source (a placeholder
comment stands in for them), so those two operations are modelled from the
spec, as marked below. -/

namespace Config

/-- Static limit from `app/config.py`: `MAX_RAM_MB = 7000`. -/
def MAX_RAM_MB : ℤ := 7000

/-- Static limit from `app/config.py`: `MAX_CPU_PERCENT = 300`. -/
def MAX_CPU_PERCENT : ℤ := 300

/-- Static limit from `app/config.py`: `MAX_STORAGE_MB = 9000`. -/
def MAX_STORAGE_MB : ℤ := 9000

/-- Static limit from `app/config.py`: `MAX_CONCURRENT_REQUESTS = 2`. -/
def MAX_CONCURRENT_REQUESTS : ℕ := 2

/-- Static limit from `app/config.py`: `FILE_RETENTION_MINUTES = 30`. -/
def FILE_RETENTION_MINUTES : ℚ := 30

end Config

/-- State of `ResourceGuard.__init__` (`resource_guard.py` lines 5-11):
the three ceilings copied from config and the in-flight request counter.
The `threading.Lock` serialises the counter updates; in this sequential
model each operation is already atomic. -/
structure ResourceGuard where
  max_ram_mb : ℤ
  max_cpu_percent : ℤ
  max_storage_mb : ℤ
  current_requests : ℕ
  deriving Repr, DecidableEq

/-- The guard constructed at import time (`resource_guard.py` line 17). -/
def ResourceGuard.init : ResourceGuard :=
  { max_ram_mb := Config.MAX_RAM_MB, max_cpu_percent := Config.MAX_CPU_PERCENT,
    max_storage_mb := Config.MAX_STORAGE_MB, current_requests := 0 }

/-- One host-metrics sample (memory in MB, CPU in percent), as read by
`psutil`; `none` models a sampling failure. -/
structure HostSample where
  ram_mb : ℤ
  cpu_percent : ℤ
  deriving Repr, DecidableEq

/-- Modelled from the spec: the body of `ResourceGuard.check_resources` is
elided in `app/resource_guard.py` (line 14 is a placeholder comment).  Per
spec §4.1 it samples host memory and CPU and returns `(ok, reason)`: not-ok
with a human-readable reason when either sample exceeds its ceiling, and a
failure to read host metrics degrades to assume-ok.  It is a pure check:
it takes the guard and returns only the verdict, touching no state. -/
def ResourceGuard.check_resources (g : ResourceGuard) (sample : Option HostSample) :
    Bool × String :=
  match sample with
  | none => (true, "")
  | some s =>
      if s.ram_mb > g.max_ram_mb then
        (false, "RAM usage above limit")
      else if s.cpu_percent > g.max_cpu_percent then
        (false, "CPU usage above limit")
      else
        (true, "")

/-- The typed rejection the guard hands back when the concurrency cap is hit. -/
inductive GuardError where
  | capacity
  deriving Repr, DecidableEq

/-- Modelled from the spec: the scoped-acquisition entry (`__enter__` behind
`with resource_guard:` in `main.py` line 143) is elided in
`app/resource_guard.py`.  Per spec §4.1, if `active_slots ==
max_concurrent_requests` at acquisition time the caller is rejected
immediately with a typed capacity error and is never queued; otherwise the
active-slot counter is incremented under the mutex. -/
def ResourceGuard.acquire (g : ResourceGuard) (maxConc : ℕ) :
    Except GuardError ResourceGuard :=
  if g.current_requests = maxConc then .error GuardError.capacity
  else .ok { g with current_requests := g.current_requests + 1 }

/-- Modelled from the spec: the paired release (`__exit__`) is elided in
`app/resource_guard.py`; per spec §4.1 it decrements the active-slot
counter under the mutex. -/
def ResourceGuard.release (g : ResourceGuard) : ResourceGuard :=
  { g with current_requests := g.current_requests - 1 }

/-- The `with resource_guard:` scope of `separate_audio` (`main.py` lines
142-238): acquire, run the body, release on scope exit.  The body outcome is
abstract: `Except.ok` models a normal (or early) return, `Except.error` a
raised exception; either way the scope exit runs the release before the
outcome propagates. -/
def ResourceGuard.scoped {ε α : Type} (g : ResourceGuard) (maxConc : ℕ)
    (body : Except ε α) : Except GuardError (ResourceGuard × Except ε α) :=
  match g.acquire maxConc with
  | .error e => .error e
  | .ok g' => .ok (g'.release, body)

/-- N successive acquisitions on the same guard ("N simultaneous
submissions" in the serialised order the guard's mutex imposes). -/
def ResourceGuard.acquireN (g : ResourceGuard) (maxConc : ℕ) :
    ℕ → Except GuardError ResourceGuard
  | 0 => .ok g
  | n + 1 =>
      match g.acquireN maxConc n with
      | .error e => .error e
      | .ok g' => g'.acquire maxConc

/-! ## Retention sweeper (`app/auto_cleaner.py`) -/

/-- One directory entry seen by the sweeper: its modification time and
whether trying to delete it raises (models `os.remove` / `shutil.rmtree`
failing on that entry). -/
structure FsEntry where
  name : String
  mtime : ℚ
  deleteFails : Bool
  deriving Repr, DecidableEq

/-- The inner loop of `_cleanup_old_files` (`auto_cleaner.py` lines 31-39)
over one directory listing: each entry older than the cutoff is deleted;
a deletion that raises propagates out of the loop at once, leaving the
failing entry and every later entry of the listing untouched.  Returns the
surviving entries and the error, if one was raised. -/
def cleanup_entries (cutoff : ℚ) : List FsEntry → List FsEntry × Option String
  | [] => ([], none)
  | e :: rest =>
      if e.mtime < cutoff then
        if e.deleteFails then (e :: rest, some e.name)
        else cleanup_entries cutoff rest
      else
        let (s, err) := cleanup_entries cutoff rest
        (e :: s, err)

/-- `_cleanup_old_files` (`auto_cleaner.py` lines 25-39) over the managed
directories `[upload_dir, output_dir]`: an exception raised while sweeping
one directory propagates immediately, leaving the remaining directories
unscanned. -/
def cleanup_old_files (cutoff : ℚ) :
    List (List FsEntry) → List (List FsEntry) × Option String
  | [] => ([], none)
  | folder :: rest =>
      let (s, err) := cleanup_entries cutoff folder
      match err with
      | some msg => (s :: rest, some msg)
      | none =>
          let (rs, rerr) := cleanup_old_files cutoff rest
          (s :: rs, rerr)

/-- One cycle of `_cleanup_loop` (`auto_cleaner.py` lines 17-23): run the
sweep and catch any exception it raises (the loop only logs it and sleeps
again), so a cycle always returns the resulting directory contents. -/
def cleanup_cycle (cutoff : ℚ) (dirs : List (List FsEntry)) :
    List (List FsEntry) :=
  (cleanup_old_files cutoff dirs).1

/-! ## Upload validation (`app/utils/file_utils.py`, `app/main.py`)

Filenames are modelled as `List Char` (a Lean `String` does not reduce in
the kernel); `"track.mp3".data` is the literal filename `track.mp3`. -/

/-- The allow-list of `validate_audio_file` (`file_utils.py` line 24). -/
def allowed_extensions : List (List Char) :=
  [".mp3".data, ".wav".data, ".m4a".data, ".aac".data, ".flac".data, ".ogg".data]

/-- Python `str.lower()` on a filename (ASCII case folding). -/
def py_lower (s : List Char) : List Char := s.map Char.toLower

/-- Python `s.endswith(suffix)`. -/
def py_endswith (s suffix : List Char) : Bool := suffix.isSuffixOf s

/-- `validate_audio_file` (`file_utils.py` lines 22-27):
`filename.lower().endswith(allowed)` — a tuple argument to `endswith`
succeeds when any listed suffix matches; otherwise an HTTP 400
format error is raised.  Returns `True` on success, as the source does. -/
def validate_audio_file (filename : List Char) : Except String Bool :=
  if allowed_extensions.any (fun ext => py_endswith (py_lower filename) ext) then
    .ok true
  else
    .error "Formato non supportato"

/-- The validation prologue of `separate_audio` (`main.py` lines 145-156):
first the filename check, then the empty-payload check on the byte count
read from the upload. -/
def separate_validate (filename : List Char) (upload_size : ℕ) :
    Except String Unit :=
  match validate_audio_file filename with
  | .error e => .error e
  | .ok _ => if upload_size = 0 then .error "Il file e vuoto" else .ok ()

/-! ## Admin traffic endpoint (`app/main.py` lines 274-285) -/

/-- Python `round` to an integer: round-half-to-even (banker's rounding). -/
def roundHalfEven (q : ℚ) : ℤ :=
  if q - (⌊q⌋ : ℚ) < 1 / 2 then ⌊q⌋
  else if q - (⌊q⌋ : ℚ) > 1 / 2 then ⌊q⌋ + 1
  else if ⌊q⌋ % 2 = 0 then ⌊q⌋ else ⌊q⌋ + 1

/-- Python `round(x, 2)`: round to two decimal places, ties to even. -/
def round2 (q : ℚ) : ℚ := (roundHalfEven (q * 100) : ℚ) / 100

/-- The `remaining_gb` field computed by `get_traffic_stats` (`main.py`
line 283): `round(10 - (used_bytes / 1024**3), 2)` — a hardcoded 10,
not the ledger's `max_bytes`, and no clamping at zero. -/
def traffic_stats_remaining_gb (m : TrafficMonitor) : ℚ :=
  round2 (10 - (m.used_bytes : ℚ) / 1024 ^ 3)

/-! ## Ledger lemmas and claims C4-C7 -/

namespace TrafficMonitor

theorem month_seconds_pos : (0 : ℚ) < month_seconds := by norm_num [month_seconds]

/-- When 30 days have not elapsed, the rollover check is a no-op. -/
theorem check_month_reset_no (m : TrafficMonitor) (disk : Disk) (now : ℚ)
    (h : ¬ now - m.month_start > month_seconds) :
    _check_month_reset m disk now = (m, disk, false) := by
  simp [_check_month_reset, h]

/-- When more than 30 days have elapsed, the rollover check resets the
counters and persists the reset state. -/
theorem check_month_reset_yes (m : TrafficMonitor) (disk : Disk) (now : ℚ)
    (h : now - m.month_start > month_seconds) :
    _check_month_reset m disk now =
      ({ m with used_bytes := 0, month_start := now },
        save_state { m with used_bytes := 0, month_start := now } disk now,
        true) := by
  simp [_check_month_reset, h, _reset_month]

/-- Reading an existing, in-period state file populates the fresh monitor
from it and leaves the file alone. -/
theorem load_state_some (maxB : ℤ) (disk : Disk) (data : LedgerFile) (now : ℚ)
    (hc : disk.contents = some data)
    (h : ¬ now - data.month_start > month_seconds) :
    TrafficMonitor.load_state maxB disk now =
      ({ max_bytes := maxB, used_bytes := data.used_bytes,
         month_start := data.month_start }, disk) := by
  unfold load_state
  rw [hc]
  dsimp only
  rw [check_month_reset_no
    { max_bytes := maxB, used_bytes := data.used_bytes,
      month_start := data.month_start } disk now h]

end TrafficMonitor

open TrafficMonitor in
/-- C4: whatever the ledger state and non-negative byte counts `u`, `d`,
`add_traffic u d` leaves `used_bytes` at its prior value plus `u + d` when
the call performs no period rollover, and at exactly `u + d` when it does
(the check-and-reset runs before the addition). -/
theorem add_traffic_used_bytes (m : TrafficMonitor) (disk : Disk) (now : ℚ)
    (u d : ℤ) (hu : 0 ≤ u) (hd : 0 ≤ d) :
    (m.add_traffic disk now u d).1.used_bytes =
      if now - m.month_start > month_seconds then u + d
      else m.used_bytes + (u + d) := by
  by_cases h : now - m.month_start > month_seconds
  · rw [if_pos h]
    unfold add_traffic
    rw [check_month_reset_yes m disk now h]
    simp [get_usage_percent, check_month_reset_no, month_seconds]
  · rw [if_neg h]
    unfold add_traffic
    rw [check_month_reset_no m disk now h]
    simp [get_usage_percent, check_month_reset_no, h]

open TrafficMonitor in
/-- C4 witness: a concrete run of each branch. -/
theorem add_traffic_used_bytes_witness :
    (TrafficMonitor.add_traffic ⟨100, 5, 0⟩ ⟨none, false⟩ 10 3 4).1.used_bytes = 12 ∧
    (TrafficMonitor.add_traffic ⟨100, 5, 0⟩ ⟨none, false⟩ 2592001 3 4).1.used_bytes = 7 := by
  constructor
  · have h := add_traffic_used_bytes ⟨100, 5, 0⟩ ⟨none, false⟩ 10 3 4
      (by norm_num) (by norm_num)
    norm_num [month_seconds] at h
    exact h
  · have h := add_traffic_used_bytes ⟨100, 5, 0⟩ ⟨none, false⟩ 2592001 3 4
      (by norm_num) (by norm_num)
    norm_num [month_seconds] at h
    exact h

open TrafficMonitor in
/-- C5: in every ledger state where more than 30 days have elapsed since
`period_start` — in particular even when the pre-rollover `used_bytes` is at
or above the cap — `is_limit_reached` returns `false` and
`get_usage_percent` returns `0`: both perform the rollover check before
comparing or dividing. -/
theorem rollover_clears_limit (m : TrafficMonitor) (disk : Disk) (now : ℚ)
    (h : now - m.month_start > month_seconds) :
    (m.is_limit_reached disk now).2.2 = false ∧
    (m.get_usage_percent disk now).2.2 = 0 := by
  constructor
  · unfold is_limit_reached
    rw [check_month_reset_yes m disk now h]
    simp
  · unfold get_usage_percent
    rw [check_month_reset_yes m disk now h]
    simp

open TrafficMonitor in
/-- C5 witness: a ledger five times over its cap, one second past the
30-day boundary. -/
theorem rollover_clears_limit_witness :
    (TrafficMonitor.is_limit_reached ⟨100, 500, 0⟩ ⟨none, false⟩ 2592001).2.2 = false ∧
    (TrafficMonitor.get_usage_percent ⟨100, 500, 0⟩ ⟨none, false⟩ 2592001).2.2 = 0 :=
  rollover_clears_limit ⟨100, 500, 0⟩ ⟨none, false⟩ 2592001
    (by norm_num [TrafficMonitor.month_seconds])

open TrafficMonitor in
/-- C6 counterexample: a ledger whose `month_start` lies more than 30 days
in the past (nothing has run the rollover check in a month — e.g. a state
saved at shutdown).  `save_state` writes `used_bytes = 5, month_start = 0`;
the fresh instance constructed over that file performs the rollover check in
`load_state` and comes up with `used_bytes = 0`, not `5`. -/
theorem save_load_roundtrip_cex :
    ¬ ((TrafficMonitor.load_state 100
          (TrafficMonitor.save_state ⟨100, 5, 0⟩ ⟨none, false⟩ 2592001)
          2592001).1.used_bytes = 5 ∧
       (TrafficMonitor.load_state 100
          (TrafficMonitor.save_state ⟨100, 5, 0⟩ ⟨none, false⟩ 2592001)
          2592001).1.month_start = 0) := by
  norm_num [load_state, save_state, write_state_file, _check_month_reset,
    _reset_month, month_seconds]

open TrafficMonitor in
/-- C6 amended: saving a ledger whose write succeeds and reloading it in a
fresh instance at a time at which the period has not yet rolled over (within
30 days of `month_start`) yields identical `used_bytes` and `month_start`. -/
theorem save_load_roundtrip (m : TrafficMonitor) (disk : Disk) (tSave tLoad : ℚ)
    (hW : disk.failWrites = false)
    (h : ¬ tLoad - m.month_start > month_seconds) :
    (TrafficMonitor.load_state m.max_bytes
        (m.save_state disk tSave) tLoad).1.used_bytes = m.used_bytes ∧
    (TrafficMonitor.load_state m.max_bytes
        (m.save_state disk tSave) tLoad).1.month_start = m.month_start := by
  have hsave : m.save_state disk tSave =
      { disk with contents := some ⟨m.used_bytes, m.month_start, tSave⟩ } := by
    simp [save_state, write_state_file, hW]
  rw [hsave, load_state_some m.max_bytes _ ⟨m.used_bytes, m.month_start, tSave⟩ tLoad rfl h]
  exact ⟨rfl, rfl⟩

open TrafficMonitor in
/-- C6 amended witness: an in-period round trip. -/
theorem save_load_roundtrip_witness :
    (TrafficMonitor.load_state 100
        (TrafficMonitor.save_state ⟨100, 5, 0⟩ ⟨none, false⟩ 10) 20).1.used_bytes = 5 ∧
    (TrafficMonitor.load_state 100
        (TrafficMonitor.save_state ⟨100, 5, 0⟩ ⟨none, false⟩ 10) 20).1.month_start = 0 :=
  save_load_roundtrip ⟨100, 5, 0⟩ ⟨none, false⟩ 10 20 rfl
    (by norm_num [TrafficMonitor.month_seconds])

open TrafficMonitor in
/-- C7: when every write to the state file raises, `add_traffic` still
returns normally (the exception is caught inside `save_state` and only
logged): the on-disk state is left untouched while the in-memory
increment is retained, not rolled back. -/
theorem add_traffic_persistence_failure (m : TrafficMonitor) (disk : Disk)
    (now : ℚ) (u d : ℤ) (hW : disk.failWrites = true) :
    (m.add_traffic disk now u d).2 = disk ∧
    (m.add_traffic disk now u d).1.used_bytes =
      (if now - m.month_start > month_seconds then u + d
       else m.used_bytes + (u + d)) := by
  have hsave : ∀ (m' : TrafficMonitor) (t : ℚ), m'.save_state disk t = disk := by
    intro m' t
    simp [save_state, write_state_file, hW]
  by_cases h : now - m.month_start > month_seconds
  · rw [if_pos h]
    unfold add_traffic
    rw [check_month_reset_yes m disk now h, hsave]
    simp [get_usage_percent, check_month_reset_no, month_seconds, hsave]
  · rw [if_neg h]
    unfold add_traffic
    rw [check_month_reset_no m disk now h]
    simp [get_usage_percent, check_month_reset_no, h, hsave]

open TrafficMonitor in
/-- C7 witness: a failing disk, one run in each branch of the rollover. -/
theorem add_traffic_persistence_failure_witness :
    (TrafficMonitor.add_traffic ⟨100, 5, 0⟩ ⟨none, true⟩ 10 3 4).2 = ⟨none, true⟩ ∧
    (TrafficMonitor.add_traffic ⟨100, 5, 0⟩ ⟨none, true⟩ 10 3 4).1.used_bytes = 12 := by
  have h := add_traffic_persistence_failure ⟨100, 5, 0⟩ ⟨none, true⟩ 10 3 4 rfl
  norm_num [month_seconds] at h
  exact h

/-! ## Resource-guard claims C1-C3 -/

/-- Acquiring slot by slot from a counter that stays under the cap succeeds
at every step, the counter accumulating one increment per acquisition. -/
theorem ResourceGuard.acquireN_ok (g : ResourceGuard) (maxConc n : ℕ)
    (h : g.current_requests + n ≤ maxConc) :
    g.acquireN maxConc n =
      .ok { g with current_requests := g.current_requests + n } := by
  induction n with
  | zero => rfl
  | succ k ih =>
      have hk : g.current_requests + k ≤ maxConc := by omega
      rw [ResourceGuard.acquireN, ih hk]
      dsimp only
      rw [ResourceGuard.acquire, if_neg (by omega : ¬ g.current_requests + k = maxConc)]
      rfl

/-- C1: an acquisition attempted while the active-slot count equals
`max_concurrent_requests` is rejected immediately with the typed capacity
error (the gate returns, it never queues); and from an idle guard every
`N ≤ max_concurrent_requests` successive acquisitions all succeed, leaving
the active-slot counter at `N`. -/
theorem guard_admission_control (g : ResourceGuard) (maxConc N : ℕ)
    (h0 : g.current_requests = 0) (hN : N ≤ maxConc) :
    (∀ gfull : ResourceGuard, gfull.current_requests = maxConc →
        gfull.acquire maxConc = .error GuardError.capacity) ∧
    g.acquireN maxConc N = .ok { g with current_requests := N } := by
  constructor
  · intro gfull hfull
    simp [ResourceGuard.acquire, hfull]
  · have h := ResourceGuard.acquireN_ok g maxConc N (by omega)
    simpa [h0] using h

/-- C1 witness: the configured cap of 2; both admissions succeed, the third
concurrent one is rejected. -/
theorem guard_admission_control_witness :
    ResourceGuard.init.acquireN Config.MAX_CONCURRENT_REQUESTS 2 =
      .ok { ResourceGuard.init with current_requests := 2 } ∧
    ({ ResourceGuard.init with current_requests := 2 } : ResourceGuard).acquire
        Config.MAX_CONCURRENT_REQUESTS = .error GuardError.capacity := by
  have h := guard_admission_control ResourceGuard.init Config.MAX_CONCURRENT_REQUESTS 2
    rfl (by decide)
  exact ⟨h.2, h.1 _ rfl⟩

/-- C2: whatever the body of the `with resource_guard:` scope does — normal
return or raised error — once the acquisition succeeded the slot is released
exactly once on scope exit: the guard comes back to its pre-acquisition
state (so the counter to its pre-acquisition value), the body's outcome
passes through, and a subsequent acquisition under the cap succeeds. -/
theorem scoped_releases_slot {ε α : Type} (g : ResourceGuard) (maxConc : ℕ)
    (body : Except ε α) (h : ¬ g.current_requests = maxConc) :
    g.scoped maxConc body = .ok (g, body) ∧
    ∃ g', g.acquire maxConc = .ok g' := by
  have hacq : g.acquire maxConc =
      .ok { g with current_requests := g.current_requests + 1 } := by
    rw [ResourceGuard.acquire, if_neg h]
  refine ⟨?_, ⟨_, hacq⟩⟩
  rw [ResourceGuard.scoped, hacq]
  dsimp only
  rw [ResourceGuard.release]
  simp

/-- C2 witness: a body that raises, on the idle guard with the configured
cap: the slot count is back to its pre-acquisition value (the guard is the
idle guard again) and a further acquisition succeeds. -/
theorem scoped_releases_slot_witness :
    ResourceGuard.init.scoped Config.MAX_CONCURRENT_REQUESTS
        (Except.error () : Except Unit Unit) =
      .ok (ResourceGuard.init, Except.error ()) ∧
    ∃ g', ResourceGuard.init.acquire Config.MAX_CONCURRENT_REQUESTS = .ok g' :=
  scoped_releases_slot ResourceGuard.init Config.MAX_CONCURRENT_REQUESTS
    (Except.error ()) (by decide)

/-- C3: on a successful sample, `check_resources` answers not-ok exactly
when the sampled memory exceeds `max_ram_mb` or the sampled CPU exceeds
`max_cpu_percent`, and a not-ok verdict carries a non-empty human-readable
reason.  The check is a pure function of the guard's ceilings and the
sample: it blocks on nothing and mutates nothing. -/
theorem check_resources_spec (g : ResourceGuard) (s : HostSample) :
    ((g.check_resources (some s)).1 = false ↔
      s.ram_mb > g.max_ram_mb ∨ s.cpu_percent > g.max_cpu_percent) ∧
    ((g.check_resources (some s)).1 = false →
      (g.check_resources (some s)).2 ≠ "") := by
  unfold ResourceGuard.check_resources
  by_cases h1 : s.ram_mb > g.max_ram_mb
  · simp [h1]
  · by_cases h2 : s.cpu_percent > g.max_cpu_percent
    · simp [h1, h2]
    · simp [h1, h2]

/-! ## Retention-sweeper claim C8 -/

/-- A sweep of one listing with no failing old entry deletes exactly the
entries older than the cutoff and raises nothing. -/
theorem cleanup_entries_clean (cutoff : ℚ) (l : List FsEntry)
    (hok : ∀ e ∈ l, e.mtime < cutoff → e.deleteFails = false) :
    cleanup_entries cutoff l =
      (l.filter (fun e => !decide (e.mtime < cutoff)), none) := by
  induction l with
  | nil => rfl
  | cons e rest ih =>
      have hrest : ∀ x ∈ rest, x.mtime < cutoff → x.deleteFails = false :=
        fun x hx => hok x (List.mem_cons_of_mem e hx)
      by_cases he : e.mtime < cutoff
      · simp [cleanup_entries, he, hok e (List.mem_cons_self e rest) he,
          ih hrest, List.filter]
      · simp [cleanup_entries, he, ih hrest, List.filter]

/-- A sweep of one listing stops at the first old entry whose deletion
raises: old entries scanned before it are deleted, it and everything after
it survive, and the raised error carries its name. -/
theorem cleanup_entries_fail (cutoff : ℚ) (pre : List FsEntry) (bad : FsEntry)
    (post : List FsEntry)
    (hpre : ∀ e ∈ pre, e.mtime < cutoff → e.deleteFails = false)
    (hold : bad.mtime < cutoff) (hfail : bad.deleteFails = true) :
    cleanup_entries cutoff (pre ++ bad :: post) =
      (pre.filter (fun e => !decide (e.mtime < cutoff)) ++ bad :: post,
        some bad.name) := by
  induction pre with
  | nil => simp [cleanup_entries, hold, hfail]
  | cons e rest ih =>
      have hrest : ∀ x ∈ rest, x.mtime < cutoff → x.deleteFails = false :=
        fun x hx => hpre x (List.mem_cons_of_mem e hx)
      by_cases he : e.mtime < cutoff
      · simp [cleanup_entries, he, hpre e (List.mem_cons_self e rest) he,
          ih hrest, List.filter]
      · simp [cleanup_entries, he, ih hrest, List.filter]

/-- C8 counterexample: one managed directory with two entries, both older
than the retention window; deleting the first raises, the second is
deletable.  The cycle leaves BOTH entries in place: the old deletable entry
after the failing one is not deleted in that same cycle. -/
theorem cleanup_cycle_cex :
    cleanup_cycle 10 [[⟨"a", 0, true⟩, ⟨"b", 0, false⟩]] =
      [[⟨"a", 0, true⟩, ⟨"b", 0, false⟩]] ∧
    (⟨"b", 0, false⟩ : FsEntry).mtime < 10 ∧
    (⟨"b", 0, false⟩ : FsEntry).deleteFails = false := by
  refine ⟨?_, by norm_num, rfl⟩
  norm_num [cleanup_cycle, cleanup_old_files, cleanup_entries]

/-- C8 amended: a deletion error on one entry is caught and logged by the
sweep loop — the cycle function still returns — but it aborts the remainder
of that cycle: old entries scanned before the failing one are deleted, the
failing entry, every later entry of its directory and every remaining
directory are left untouched until a later cycle. -/
theorem cleanup_error_aborts_cycle (cutoff : ℚ) (pre : List FsEntry)
    (bad : FsEntry) (post : List FsEntry) (dpost : List (List FsEntry))
    (hpre : ∀ e ∈ pre, e.mtime < cutoff → e.deleteFails = false)
    (hold : bad.mtime < cutoff) (hfail : bad.deleteFails = true) :
    cleanup_cycle cutoff ((pre ++ bad :: post) :: dpost) =
      (pre.filter (fun e => !decide (e.mtime < cutoff)) ++ bad :: post)
        :: dpost ∧
    (cleanup_old_files cutoff ((pre ++ bad :: post) :: dpost)).2 =
      some bad.name := by
  have h := cleanup_entries_fail cutoff pre bad post hpre hold hfail
  constructor
  · simp [cleanup_cycle, cleanup_old_files, h]
  · simp [cleanup_old_files, h]

/-- C8 amended witness: a young entry and an old deleted entry precede the
failing entry; the directory after it is untouched. -/
theorem cleanup_error_aborts_cycle_witness :
    cleanup_cycle 10 (([⟨"young", 20, false⟩, ⟨"old", 0, false⟩] ++
        ⟨"bad", 1, true⟩ :: [⟨"later", 2, false⟩]) :: [[⟨"other", 3, false⟩]]) =
      ([⟨"young", 20, false⟩].filter (fun e => !decide (e.mtime < 10)) ++
        ⟨"bad", 1, true⟩ :: [⟨"later", 2, false⟩]) :: [[⟨"other", 3, false⟩]] ∧
    (cleanup_old_files 10 (([⟨"young", 20, false⟩, ⟨"old", 0, false⟩] ++
        ⟨"bad", 1, true⟩ :: [⟨"later", 2, false⟩]) :: [[⟨"other", 3, false⟩]])).2 =
      some "bad" := by
  have h := cleanup_error_aborts_cycle 10
    [⟨"young", 20, false⟩, ⟨"old", 0, false⟩] ⟨"bad", 1, true⟩
    [⟨"later", 2, false⟩] [[⟨"other", 3, false⟩]]
    (by intro e he hm
        fin_cases he
        · norm_num at hm
        · rfl)
    (by norm_num) rfl
  rcases h with ⟨h1, h2⟩
  refine ⟨?_, h2⟩
  rw [h1]
  norm_num [List.filter]

/-! ## Validation claim C9 -/

/-- C9: the filename check accepts exactly the filenames whose lowercased
form ends with one of the allow-listed audio extensions, and rejects every
other filename with the format error; `track.mp3` and `song.WAV` pass,
`malware.exe` and `noext` fail; and the `/separate` prologue rejects a
zero-length payload whatever the filename. -/
theorem validate_audio_file_spec :
    (∀ f : List Char, validate_audio_file f = .ok true ↔
        ∃ ext ∈ allowed_extensions, py_endswith (py_lower f) ext = true) ∧
    (∀ f : List Char, validate_audio_file f = .ok true ∨
        validate_audio_file f = .error "Formato non supportato") ∧
    validate_audio_file "track.mp3".data = .ok true ∧
    validate_audio_file "song.WAV".data = .ok true ∧
    validate_audio_file "malware.exe".data = .error "Formato non supportato" ∧
    validate_audio_file "noext".data = .error "Formato non supportato" ∧
    (∀ f : List Char, separate_validate f 0 ≠ .ok ()) := by
  refine ⟨?_, ?_, rfl, rfl, rfl, rfl, ?_⟩
  · intro f
    unfold validate_audio_file
    by_cases h : allowed_extensions.any (fun ext => py_endswith (py_lower f) ext)
    · simp only [h, if_true]
      simpa using List.any_eq_true.mp h
    · simp only [h, if_false]
      constructor
      · intro hc; cases hc
      · intro hc
        exact absurd (List.any_eq_true.mpr (by simpa using hc)) (by simp [h])
  · intro f
    unfold validate_audio_file
    by_cases h : allowed_extensions.any (fun ext => py_endswith (py_lower f) ext)
    · simp [h]
    · simp [h]
  · intro f h
    unfold separate_validate at h
    revert h
    cases validate_audio_file f <;> simp

/-! ## Admin traffic claim C10 -/

/-- Rounding a rational at or below -1 stays at or below -1. -/
theorem roundHalfEven_le_neg (q : ℚ) (h : q ≤ -1) : roundHalfEven q ≤ -1 := by
  have hfl : (⌊q⌋ : ℚ) ≤ q := Int.floor_le q
  have hf1 : ⌊q⌋ ≤ -1 := by
    have h2 : ⌊q⌋ ≤ ⌊(-1 : ℚ)⌋ := Int.floor_le_floor h
    rwa [show ⌊(-1 : ℚ)⌋ = -1 from by norm_num] at h2
  unfold roundHalfEven
  split_ifs with h1 h2 h3
  · exact hf1
  · have hle : ⌊q⌋ ≤ -2 := by
      by_contra hc
      push_neg at hc
      have hfe : ⌊q⌋ = -1 := by omega
      rw [hfe] at h2
      push_cast at h2
      linarith
    omega
  · exact hf1
  · have hr : q - (⌊q⌋ : ℚ) = 1 / 2 := le_antisymm (not_lt.mp h2) (not_lt.mp h1)
    have hle : ⌊q⌋ ≤ -2 := by
      by_contra hc
      push_neg at hc
      have hfe : ⌊q⌋ = -1 := by omega
      rw [hfe] at hr
      push_cast at hr
      linarith
    omega

/-- A rational at or below one display unit under zero rounds to a
strictly negative two-decimal value. -/
theorem round2_neg (x : ℚ) (h : x ≤ -1 / 100) : round2 x < 0 := by
  have h1 : x * 100 ≤ -1 := by linarith
  have h2 := roundHalfEven_le_neg (x * 100) h1
  have h3 : ((roundHalfEven (x * 100) : ℤ) : ℚ) ≤ -1 := by exact_mod_cast h2
  unfold round2
  exact div_neg_of_neg_of_pos (lt_of_le_of_lt h3 (by norm_num)) (by norm_num)

/-- The ledger's own remaining-bytes getter never answers a negative
number: once the limit is reached it answers `0`, otherwise the positive
difference (a rollover resets usage to zero first). -/
theorem TrafficMonitor.get_remaining_nonneg (m : TrafficMonitor) (disk : Disk)
    (now : ℚ) (hMax : 0 ≤ m.max_bytes) :
    0 ≤ (m.get_remaining_bytes disk now).2.2 := by
  by_cases h : now - m.month_start > month_seconds
  · have hl : m.is_limit_reached disk now =
        ({ m with used_bytes := 0, month_start := now },
          save_state { m with used_bytes := 0, month_start := now } disk now,
          false) := by
      simp [is_limit_reached, check_month_reset_yes m disk now h]
    unfold get_remaining_bytes
    rw [hl]
    simpa using hMax
  · have hl : m.is_limit_reached disk now =
        (m, disk, decide (m.used_bytes ≥ m.max_bytes)) := by
      simp [is_limit_reached, check_month_reset_no m disk now h]
    unfold get_remaining_bytes
    rw [hl]
    by_cases hle : m.used_bytes ≥ m.max_bytes
    · simp [hle]
    · simp [hle]
      omega

/-- C10 counterexample: a ledger one byte over 10 GB.  Its `used_bytes`
exceeds the hardcoded 10 GB, yet the `remaining_gb` the endpoint reports is
`0` after the two-decimal rounding — not a negative value. -/
theorem admin_remaining_gb_cex :
    (10 * 1024 ^ 3 : ℤ) <
      ((⟨10 * 1024 ^ 3, 10 * 1024 ^ 3 + 1, 0⟩ : TrafficMonitor)).used_bytes ∧
    traffic_stats_remaining_gb ⟨10 * 1024 ^ 3, 10 * 1024 ^ 3 + 1, 0⟩ = 0 := by
  constructor
  · norm_num
  · have hfl : ⌊(-25 / 268435456 : ℚ)⌋ = -1 := by
      rw [Int.floor_eq_iff]
      constructor <;> norm_num
    show round2 ((10 : ℚ) - ((10 * 1024 ^ 3 + 1 : ℤ) : ℚ) / 1024 ^ 3) = 0
    rw [show ((10 : ℚ) - ((10 * 1024 ^ 3 + 1 : ℤ) : ℚ) / 1024 ^ 3) =
      -1 / 1073741824 by push_cast; norm_num]
    unfold round2 roundHalfEven
    rw [show (-1 / 1073741824 : ℚ) * 100 = -25 / 268435456 by norm_num]
    rw [hfl]
    norm_num

/-- C10 amended: the endpoint's `remaining_gb` is `round(10 - used_gb, 2)`
computed from a hardcoded 10 GB — it depends only on `used_bytes`, never on
the ledger's configured `max_bytes` — and it has no floor at zero: every
ledger state at least 10737419 bytes (~0.01 GB, one display unit) over
10 GB reports a strictly negative remaining value (within rounding distance
of the cap the reported value may round up to 0.0), whereas the ledger's
own `get_remaining_bytes` never returns a negative value. -/
theorem admin_remaining_gb_spec (m m2 : TrafficMonitor) (disk : Disk) (now : ℚ)
    (hEq : m.used_bytes = m2.used_bytes)
    (hOver : (10 * 1024 ^ 3 + 10737419 : ℤ) ≤ m.used_bytes)
    (hMax : 0 ≤ m.max_bytes) :
    traffic_stats_remaining_gb m = traffic_stats_remaining_gb m2 ∧
    traffic_stats_remaining_gb m < 0 ∧
    0 ≤ (m.get_remaining_bytes disk now).2.2 := by
  refine ⟨by simp [traffic_stats_remaining_gb, hEq], ?_,
    TrafficMonitor.get_remaining_nonneg m disk now hMax⟩
  apply round2_neg
  have h1 : ((10 * 1024 ^ 3 + 10737419 : ℤ) : ℚ) ≤ (m.used_bytes : ℚ) := by
    exact_mod_cast hOver
  have h2 : ((10 * 1024 ^ 3 + 10737419 : ℤ) : ℚ) / 1024 ^ 3 ≤
      (m.used_bytes : ℚ) / 1024 ^ 3 := by gcongr
  have h3 : (10 : ℚ) + 1 / 100 ≤ ((10 * 1024 ^ 3 + 10737419 : ℤ) : ℚ) / 1024 ^ 3 := by
    push_cast
    norm_num
  linarith [h2, h3]

/-- C10 amended witness: 0.01 GB over the cap, two ledgers differing only in
`max_bytes`. -/
theorem admin_remaining_gb_spec_witness :
    traffic_stats_remaining_gb ⟨10 * 1024 ^ 3, 10 * 1024 ^ 3 + 10737419, 0⟩ =
      traffic_stats_remaining_gb ⟨0, 10 * 1024 ^ 3 + 10737419, 0⟩ ∧
    traffic_stats_remaining_gb ⟨10 * 1024 ^ 3, 10 * 1024 ^ 3 + 10737419, 0⟩ < 0 ∧
    0 ≤ (TrafficMonitor.get_remaining_bytes
        ⟨10 * 1024 ^ 3, 10 * 1024 ^ 3 + 10737419, 0⟩ ⟨none, false⟩ 0).2.2 :=
  admin_remaining_gb_spec ⟨10 * 1024 ^ 3, 10 * 1024 ^ 3 + 10737419, 0⟩
    ⟨0, 10 * 1024 ^ 3 + 10737419, 0⟩ ⟨none, false⟩ 0 rfl (by norm_num) (by norm_num)
